import Mathlib

/-!
Shallow embedding of the bounded-concurrency job pipeline of
`src/backend/main.py` (peppo-ai-backend), together with theorems settling
the specification claims about it.

Conventions:
* Python strings are Lean `String`s; character-level helpers (`pyStrip`,
  `pySplitWs`, ...) re-implement the Python `str` methods used by the code
  over `List Char`, so every definition is kernel-executable.
* Machine floats appearing in the source (`0.9`, `0.7`, sizes in MB) are
  modelled as rationals; Python `int(x)` on a nonnegative float is `Int.floor`.
* Exceptions are modelled by explicit environment flags naming the statement
  that raises; the enclosing `except` handler becomes the corresponding
  cleanup branch of the Lean function.
-/

namespace Peppo

/-! ### Python string helpers -/

/-- Drop leading and trailing whitespace from a character list
(Python `str.strip()`). -/
def stripChars (cs : List Char) : List Char :=
  ((cs.dropWhile Char.isWhitespace).reverse.dropWhile Char.isWhitespace).reverse

/-- Python `str.strip()`. -/
def pyStrip (s : String) : String := ⟨stripChars s.data⟩

/-- Remove every (left-to-right, non-overlapping) occurrence of the
non-empty pattern from the character list, with a fuel argument bounding
the number of steps so that the recursion is structural (the caller passes
the list's length, which always suffices).  This is Python
`str.replace(pat, '')`. -/
def removeAllFuel (pat : List Char) : ℕ → List Char → List Char
  | 0, cs => cs
  | _ + 1, [] => []
  | fuel + 1, c :: cs =>
    if pat.isPrefixOf (c :: cs) then
      removeAllFuel pat fuel ((c :: cs).drop pat.length)
    else
      c :: removeAllFuel pat fuel cs

/-- Python `s.replace(pat, '')` for a non-empty pattern. -/
def removeAll (pat cs : List Char) : List Char :=
  removeAllFuel pat cs.length cs

/-- Python `'whatsapp:' + ...` prefix removal used by the webhook:
`from_raw.replace('whatsapp:', '')`. -/
def stripWhatsapp (s : String) : String :=
  ⟨removeAll "whatsapp:".data s.data⟩

/-- Split a character list on whitespace, dropping empty fragments
(Python `str.split()` with no argument). -/
def splitWsChars : List Char → List Char → List String
  | acc, [] => if acc = [] then [] else [⟨acc.reverse⟩]
  | acc, c :: cs =>
    if c.isWhitespace then
      (if acc = [] then [] else [(⟨acc.reverse⟩ : String)]) ++ splitWsChars [] cs
    else
      splitWsChars (c :: acc) cs

/-- Python `str.split()` (whitespace, empty fragments removed). -/
def pySplitWs (s : String) : List String := splitWsChars [] s.data

/-- Python `c in s` for a single character. -/
def pyContainsChar (s : String) (c : Char) : Bool := s.data.contains c

/-- Split at the first occurrence of `sep`, Python `s.split(sep, 1)` for a
single-character separator, returning the pieces before and after it
(the whole string and `""` when `sep` is absent). -/
def splitOnce (sep : Char) : List Char → List Char × List Char
  | [] => ([], [])
  | c :: cs =>
    if c = sep then ([], cs)
    else
      let r := splitOnce sep cs
      (c :: r.1, r.2)

/-- Python `s.split('=', 1)` packaged as a pair of strings. -/
def pySplitEqOnce (s : String) : String × String :=
  let r := splitOnce '=' s.data
  (⟨r.1⟩, ⟨r.2⟩)

/-- Python `str.lower()` (ASCII is all the source needs). -/
def pyLower (s : String) : String := ⟨s.data.map Char.toLower⟩

/-- Python `str.isdigit()`: non-empty and all digits. -/
def pyIsDigit (s : String) : Bool := !s.data.isEmpty && s.data.all Char.isDigit

/-- Python `int(s)` on a digit string. -/
def pyToNat (s : String) : Nat :=
  s.data.foldl (fun n c => n * 10 + (c.toNat - '0'.toNat)) 0

/-- Does `needle` occur as a contiguous substring of `haystack`
(Python `needle in haystack`)? -/
def containsSub (needle haystack : String) : Bool :=
  decide (needle.data <:+: haystack.data)

/-- Python `s.startswith(p)`. -/
def pyStartsWith (s p : String) : Bool := p.data.isPrefixOf s.data

end Peppo

namespace Peppo

/-! ### Webhook / concurrency model (`whatsapp_webhook`, lines 1168-1198)

The webhook extracts `From` and `Body` from the form, strips the
`whatsapp:` prefix and surrounding whitespace, ignores the message when
either field is empty, and otherwise calls
`asyncio.create_task(handle_incoming_message(...))` immediately — there is
no queue, no capacity check and no permit acquisition anywhere in the
file.  The TwiML response is returned at once in every branch. -/

/-- Does `whatsapp_webhook` accept the message (i.e. reach the
`asyncio.create_task` call)?  Mirrors lines 1175-1189 of
`src/backend/main.py`. -/
def acceptsMessage (from_raw body_raw : String) : Bool :=
  let from_number := stripWhatsapp from_raw
  let message_body := pyStrip body_raw
  !(from_number = "" || message_body = "")

/-- Outcome of presenting one inbound message to the webhook.  The source
has no queue, so `queueFull` exists in this type only to state that the
code never produces it. -/
inductive SubmitOutcome
  | spawned
  | ignoredInvalid
  | queueFull
  deriving DecidableEq, Repr

/-- The webhook's decision for one message.  `inFlight` is the number of
handler tasks already pending or running; the source never reads any such
state, which the definition reflects by ignoring the argument. -/
def submitOutcome (inFlight : Nat) (from_raw body_raw : String) : SubmitOutcome :=
  let _ := inFlight
  if acceptsMessage from_raw body_raw then .spawned else .ignoredInvalid

/-- Events observable at the webhook boundary: a message arrives, or one
running handler task completes. -/
inductive WebhookEvent
  | arrive (from_raw body_raw : String)
  | complete
  deriving Repr

/-- Number of concurrently live handler tasks after one event: every
accepted arrival spawns a task at once (`asyncio.create_task`, line 1189),
with no gate in between. -/
def stepRunning (running : Nat) : WebhookEvent → Nat
  | .arrive f b => if acceptsMessage f b then running + 1 else running
  | .complete => running - 1

/-- Live handler tasks after a sequence of events, starting from idle. -/
def runningAfter (evs : List WebhookEvent) : Nat :=
  evs.foldl stepRunning 0

end Peppo

namespace Peppo

/-! ### Compression planner (`compress_video`, lines 136-242)

Attempt 0 (lines 159-182): probe the duration, compute
`target_bitrate = int((max_size_mb * 8 * 1024) / duration * 0.9)` and
encode with `libx264`/`aac`, `audio_bitrate='128k'`, `crf=28`, no scaling.
Escalation (lines 192-217), taken when the measured size exceeds
`max_size_mb`: re-encode the attempt-0 output with
`target_bitrate = int(target_bitrate * 0.7)`, `audio_bitrate='96k'`,
`crf=32` and `vf='scale=iw*0.8:ih*0.8'`. -/

/-- Attempt-0 target video bitrate in kbps for a probed duration `d`
(seconds) and byte budget `max_size_mb` megabytes, line 164. -/
def target_bitrate (max_size_mb : ℚ) (d : ℚ) : ℤ :=
  ⌊(max_size_mb * 8 * 1024) / d * (9 / 10 : ℚ)⌋

/-- The keyword arguments the source passes to `ffmpeg.output`, as far as
they determine the encoded plan. -/
structure EncodeArgs where
  vcodec : String
  acodec : String
  video_bitrate : ℤ
  audio_bitrate : ℕ
  preset : String
  crf : ℕ
  vf_scale : Option ℚ
  deriving DecidableEq, Repr

/-- The attempt-0 encode call (lines 167-182). -/
def attempt0Args (max_size_mb d : ℚ) : EncodeArgs :=
  { vcodec := "libx264"
    acodec := "aac"
    video_bitrate := target_bitrate max_size_mb d
    audio_bitrate := 128
    preset := "medium"
    crf := 28
    vf_scale := none }

/-- The escalation encode call (lines 195-217).  `tb0` is attempt 0's
bitrate; `observed_mb` and `target_mb` are the measured and budgeted sizes.
The source uses them only for the `compressed_size > max_size_mb` trigger:
the multiplier `0.7`, the scale `0.8` and every other parameter are
constants, so the definition ignores both sizes. -/
def escalationArgs (tb0 : ℤ) (observed_mb target_mb : ℚ) : EncodeArgs :=
  let _ := observed_mb
  let _ := target_mb
  { vcodec := "libx264"
    acodec := "aac"
    video_bitrate := ⌊(tb0 : ℚ) * (7 / 10 : ℚ)⌋
    audio_bitrate := 96
    preset := "medium"
    crf := 32
    vf_scale := some (4 / 5 : ℚ) }

/-! ### Transcode stage: file bookkeeping and fallback
(`compress_video`, lines 136-242)

The function creates up to three temporary files: the downloaded input
(line 145), the first output (line 155) and the escalation output
(line 195).  One `except` block (lines 227-242) deletes the files named by
`input_path` / `output_path` *if those variables have been assigned and the
files still exist*, then returns the original URL. -/

/-- The temporary files `compress_video` can create. -/
inductive FileId
  | fin   -- the downloaded input, line 145
  | fout  -- the first compressed output, line 155
  | fout2 -- the escalation output, line 195
  deriving DecidableEq, Repr

/-- What `compress_video` hands back: a local file path or the original
URL. -/
inductive VideoRef
  | path (f : FileId)
  | url (u : String)
  deriving DecidableEq, Repr

/-- Exception environment: which fallible statement of `compress_video`
raises first, if any.  `downloadFail` is a raise inside the download
`with` block (lines 146-151, before `input_path` is assigned);
`probeFail` covers `ffmpeg.probe` and the duration parse (lines 159-164);
`encode1Fail` and `encode2Fail` are the two `ffmpeg.run` calls. -/
inductive FailPoint
  | noFail
  | downloadFail
  | probeFail
  | encode1Fail
  | encode2Fail
  deriving DecidableEq, Repr

/-- Environment of one `compress_video` run: where (if anywhere) an
exception is raised, the probed duration, and the measured size (MB) of the
attempt-0 output. -/
structure CompressEnv where
  fail : FailPoint
  duration : ℚ
  compressed_size : ℚ
  deriving DecidableEq, Repr

/-- Result and on-disk residue of one `compress_video` run. -/
structure CompressOutcome where
  result : VideoRef
  disk : List FileId
  deriving DecidableEq, Repr

/-- The `except` handler (lines 227-242): unlink the file named by
`input_path` if assigned and present, then the one named by `output_path`,
then return the original URL. -/
def compressCleanup (u : String) (input_path output_path : Option FileId)
    (disk : List FileId) : CompressOutcome :=
  let disk := match input_path with
    | some f => disk.filter (· ≠ f)
    | none => disk
  let disk := match output_path with
    | some f => disk.filter (· ≠ f)
    | none => disk
  { result := .url u, disk := disk }

/-- Straight-line model of `compress_video video_url max_size_mb`
(lines 136-242) tracking which temporary files exist when it returns.
The numbered comments name the source lines each step embeds. -/
def compress_video (u : String) (max_size_mb : ℚ) (env : CompressEnv) :
    CompressOutcome :=
  -- line 145: the input temp file exists as soon as NamedTemporaryFile opens
  let disk : List FileId := [.fin]
  if env.fail = .downloadFail then
    -- raise inside the download with-block: input_path is still None
    compressCleanup u none none disk
  else
    let input_path : Option FileId := some .fin   -- line 152
    -- line 155: the output temp file is created and output_path assigned
    let disk : List FileId := [.fin, .fout]
    let output_path : Option FileId := some .fout
    if env.fail = .probeFail ∨ env.duration ≤ 0 then
      -- ffmpeg.probe / duration parse raises (a zero duration raises
      -- ZeroDivisionError at line 164)
      compressCleanup u input_path output_path disk
    else if env.fail = .encode1Fail then
      -- the first ffmpeg .run raises (lines 167-182)
      compressCleanup u input_path output_path disk
    else
      -- line 189: os.unlink(input_path)
      let disk : List FileId := [.fout]
      if env.compressed_size > max_size_mb then
        -- line 195: the escalation temp file is created
        let disk : List FileId := [.fout, .fout2]
        if env.fail = .encode2Fail then
          -- the second ffmpeg .run raises (lines 201-217); output_path
          -- still names the first output, and the input is already gone
          compressCleanup u input_path output_path disk
        else
          -- line 219: os.unlink(output_path); line 220: output_path = output_path2
          { result := .path .fout2, disk := [.fout2] }
      else
        { result := .path .fout, disk := disk }

/-- Temporary files still on disk at return, not counting the file whose
ownership the return value transfers to the caller. -/
def leftover (o : CompressOutcome) : List FileId :=
  match o.result with
  | .path f => o.disk.filter (· ≠ f)
  | .url _ => o.disk

/-! ### Delivery (`send_whatsapp_message`, lines 244-300, and
`handle_generated_video`, lines 1035-1116)

`send_whatsapp_message` tries `twilio_client.messages.create`; when that
raises and a media URL was attached, it retries once with a text-only body
carrying the raw URL, and returns `False` only when both attempts fail.
`handle_generated_video` sends the success message with media; when that
send reports failure it sends its own text-only fallback containing the
final video URL, then sets the conversation stage to `completed` and
returns `True` regardless.  Message texts are transliterated without the
emoji decorations; URL placement mirrors the f-strings. -/

/-- One attempted Twilio message: recipient (the source's `to` kwarg, which
is a reserved token in Lean), body, optional media URL. -/
structure SentMsg where
  recipient : String
  body : String
  media_url : Option String
  deriving DecidableEq, Repr

/-- Oracle for one `send_whatsapp_message` call: does the first
`messages.create` succeed, and does the retry-without-media create
succeed. -/
structure SendEnv where
  createOk : Bool
  fallbackCreateOk : Bool
  deriving DecidableEq, Repr

/-- Model of `send_whatsapp_message to message media_url` (lines 244-300):
returns whether the call reports success, paired with the messages it
attempted to create. -/
def send_whatsapp_message (to_number message : String) (media_url : Option String)
    (env : SendEnv) : Bool × List SentMsg :=
  let first : SentMsg :=
    { recipient := to_number, body := message, media_url := media_url }
  if env.createOk then (true, [first])
  else
    match media_url with
    | some mu =>
      let fallback : SentMsg :=
        { recipient := to_number
          body := message ++ "\n\nVideo URL: " ++ mu
          media_url := none }
      (env.fallbackCreateOk, [first, fallback])
    | none => (false, [first])

/-- The four user-preference fields as `handle_generated_video` reads them
out of `prefs`. -/
structure Prefs where
  aspect_ratio : String
  resolution : String
  fps : ℕ
  duration : ℕ
  deriving DecidableEq, Repr

/-- The `Settings: ...` line interpolated into both message bodies. -/
def settingsLine (p : Prefs) : String :=
  p.aspect_ratio ++ ", " ++ p.resolution ++ ", " ++ toString p.fps ++ "fps, "
    ++ toString p.duration ++ "s"

/-- Oracles for one `handle_generated_video` run: the `compress_video`
result, the `upload_file_to_temp_server` result (`none` = upload failed),
and the Twilio outcomes of the two sends. -/
structure HgvEnv where
  compressed : VideoRef
  uploadResult : Option String
  send1 : SendEnv
  send2 : SendEnv
  deriving DecidableEq, Repr

/-- Observable result of `handle_generated_video`: attempted messages, the
conversation stage it stores, the `last_video` URL it stores, and its
return value. -/
structure HgvResult where
  sent : List SentMsg
  stage : String
  last_video : String
  ret : Bool
  deriving DecidableEq, Repr

/-- The `final_video_url` of lines 1056-1065: the original URL unless
compression produced a local file that was successfully uploaded. -/
def finalVideoUrl (u : String) (env : HgvEnv) : String :=
  match env.compressed with
  | .path _ =>
    match env.uploadResult with
    | some uploaded => uploaded
    | none => u
  | .url _ => u

/-- Text of the handler-level fallback f-string before the interpolated
URL (lines 1087-1093). -/
def hgvFallbackPre (prompt : String) (prefs : Prefs) : String :=
  "**Video Generated Successfully!**\n\nPrompt: " ++ prompt ++ "\nSettings: "
    ++ settingsLine prefs ++ "\n\n**Video URL**: "

/-- Text of the handler-level fallback f-string after the interpolated
URL. -/
def hgvFallbackPost : String :=
  "\n\nVideo could not be delivered directly. Click the URL above to download."

/-- The handler-level fallback body (lines 1087-1093): the URL is
interpolated between the fixed pre and post texts. -/
def hgvFallbackBody (prompt : String) (prefs : Prefs) (final_url : String) :
    String :=
  hgvFallbackPre prompt prefs ++ final_url ++ hgvFallbackPost

/-- Model of `handle_generated_video phone prompt video_url prefs`
(lines 1035-1116).  `compress_video` and `upload_file_to_temp_server`
never raise (both catch internally), so the `except` block at line 1106 is
unreachable and the model is total. -/
def handle_generated_video (phone prompt u : String) (prefs : Prefs)
    (env : HgvEnv) : HgvResult :=
  let final_video_url := finalVideoUrl u env
  let success_msg :=
    "**Your video is ready!**\n\nPrompt: " ++ prompt ++ "\nSettings: "
      ++ settingsLine prefs ++ "\n\nWant another video? Use !generate your new prompt"
  -- line 1083: send the video message
  let r1 := send_whatsapp_message phone success_msg (some final_video_url) env.send1
  if r1.1 then
    { sent := r1.2, stage := "completed", last_video := final_video_url, ret := true }
  else
    -- lines 1085-1094: degraded text-only fallback carrying the raw URL
    let r2 := send_whatsapp_message phone
      (hgvFallbackBody prompt prefs final_video_url) none env.send2
    { sent := r1.2 ++ r2.2, stage := "completed", last_video := final_video_url,
      ret := true }

/-! ### Content moderation (`moderate_content`, lines 71-81) and the
moderation gate of `handle_video_generation` (lines 961-1033) -/

/-- The flagged keywords, line 74. -/
def inappropriate_keywords : List String :=
  ["violence", "hate", "explicit", "harmful"]

/-- Model of `moderate_content text` (lines 71-81): scan the lowered text
for the first flagged keyword and return the 2-tuple the source returns. -/
def moderate_content (text : String) : Bool × String :=
  let text_lower := pyLower text
  match inappropriate_keywords.find? (fun kw => containsSub kw text_lower) with
  | some kw => (false, "Content contains inappropriate keyword: " ++ kw)
  | none => (true, "Content is appropriate")

/-- Python truthiness of a 2-tuple: `bool((a, b))` is `True` for every
non-empty tuple, whatever its components.  The gate at line 983 is
`if not await moderate_content(prompt):`, which applies `not` to the tuple
itself, not to its first component. -/
def pyTruthyPair {α β : Type} (p : α × β) : Bool :=
  let _ := p
  true

/-- Oracles for one `handle_video_generation` run: whether the Replicate
call raises, its output URL when it returns one, the preferences in
effect, and the oracles of the delegated `handle_generated_video`. -/
structure HvgEnv where
  replicateRaises : Bool
  replicateOutput : Option String
  prefs : Prefs
  hgv : HgvEnv
  deriving Repr

/-- The conversation stages `handle_video_generation phone prompt` writes,
in order (lines 961-1033): `generating` first; then `rejected` if the
moderation gate fires, `failed` if Replicate raises or returns no output,
or the stage written by `handle_generated_video`. -/
def handle_video_generation_stages (phone prompt : String) (env : HvgEnv) :
    List String :=
  -- line 967: conversation_state stage := 'generating'
  let s0 := ["generating"]
  -- line 983: if not await moderate_content(prompt)
  if pyTruthyPair (moderate_content prompt) = false then
    s0 ++ ["rejected"]
  else if env.replicateRaises then
    -- except handler, line 1029: stage := 'failed'
    s0 ++ ["failed"]
  else
    match env.replicateOutput with
    | some url =>
      s0 ++ [(handle_generated_video phone prompt url env.prefs env.hgv).stage]
    | none =>
      -- line 1016 raises, caught at line 1018: stage := 'failed'
      s0 ++ ["failed"]

/-! ### Settings parser (`parse_settings_command`, lines 84-133) and the
preference store (`handle_settings_command`, lines 1118-1166)

A settings value is a Python `str` or `int`; a settings dict is an ordered
association list with insert-or-replace update, mirroring a Python dict
restricted to the operations the source performs on it. -/

/-- A Python dict value in `user_preferences`: a string or an int. -/
abbrev SVal := String ⊕ ℕ

/-- An ordered string-keyed dict (association list). -/
abbrev Dict (α : Type) := List (String × α)

/-- Python `d[k] = v`: replace in place when the key exists, append
otherwise. -/
def assocSet {α : Type} (d : Dict α) (k : String) (v : α) : Dict α :=
  if d.any (fun p => p.1 = k) then
    d.map (fun p => if p.1 = k then (k, v) else p)
  else d ++ [(k, v)]

/-- Python `d.get(k)`. -/
def assocGet {α : Type} (d : Dict α) (k : String) : Option α :=
  (d.find? (fun p => p.1 = k)).map (·.2)

/-- Python `d.update(u)`: apply every entry of `u` to `d` in order. -/
def dictUpdate (d u : Dict SVal) : Dict SVal :=
  u.foldl (fun acc p => assocSet acc p.1 p.2) d

/-- The aspect-ratio whitelist, lines 101 and 119. -/
def aspectVals : List String := ["16:9", "9:16", "1:1", "4:3"]

/-- The resolution whitelist, lines 103 and 121. -/
def resolutionVals : List String := ["480p", "720p", "1080p"]

/-- The fps whitelist, lines 107 and 125. -/
def fpsVals : List ℕ := [24, 30, 60]

/-- The duration whitelist, lines 111 and 129. -/
def durationVals : List ℕ := [3, 5, 10]

/-- One `key=value` part of the new-format loop body (lines 96-112):
returns the updates dict after processing `part`. -/
def applyEqPart (updates : Dict SVal) (part : String) : Dict SVal :=
  let kv := pySplitEqOnce part
  let key := pyStrip (pyLower kv.1)
  let value := pyStrip kv.2
  if (key = "aspect_ratio" ∨ key = "ratio") ∧ value ∈ aspectVals then
    assocSet updates "aspect_ratio" (.inl value)
  else if key = "resolution" ∧ value ∈ resolutionVals then
    assocSet updates "resolution" (.inl value)
  else if key = "fps" ∧ pyIsDigit value then
    let fps_val := pyToNat value
    if fps_val ∈ fpsVals then assocSet updates "fps" (.inr fps_val) else updates
  else if (key = "duration" ∨ key = "time") ∧ pyIsDigit value then
    let duration_val := pyToNat value
    if duration_val ∈ durationVals then
      assocSet updates "duration" (.inr duration_val)
    else updates
  else updates

/-- The old-format branch body (lines 115-130), which always inspects
`settings_parts[0]` and `settings_parts[1]`: `some` of a singleton dict on
an early `return`, `none` when it falls through to `break`. -/
def oldFormatResult (settings_parts : List String) : Option (Dict SVal) :=
  let setting_type := pyLower (settings_parts[0]?.getD "")
  let setting_value := settings_parts[1]?.getD ""
  if (setting_type = "ratio" ∨ setting_type = "aspect_ratio")
      ∧ setting_value ∈ aspectVals then
    some [("aspect_ratio", .inl setting_value)]
  else if setting_type = "resolution" ∧ setting_value ∈ resolutionVals then
    some [("resolution", .inl setting_value)]
  else if setting_type = "fps" ∧ pyIsDigit setting_value then
    let fps_val := pyToNat setting_value
    if fps_val ∈ fpsVals then some [("fps", .inr fps_val)] else none
  else if (setting_type = "duration" ∨ setting_type = "time")
      ∧ pyIsDigit setting_value then
    let duration_val := pyToNat setting_value
    if duration_val ∈ durationVals then
      some [("duration", .inr duration_val)]
    else none
  else none

/-- The `for part in settings_parts` loop (lines 94-131) together with the
final `return updates if updates else None` (line 133).  The first argument
is the full `settings_parts` list (the old-format branch reads indices 0
and 1 of it, not the loop variable); the second is the tail still to be
iterated. -/
def parseLoop (settings_parts : List String) :
    List String → Dict SVal → Option (Dict SVal)
  | [], updates => if updates.isEmpty then none else some updates
  | part :: rest, updates =>
    if pyContainsChar part '=' then
      parseLoop settings_parts rest (applyEqPart updates part)
    else if 2 ≤ settings_parts.length then
      match oldFormatResult settings_parts with
      | some d => some d
      | none => if updates.isEmpty then none else some updates
    else
      parseLoop settings_parts rest updates

/-- Model of `parse_settings_command message` (lines 84-133):
`settings_parts = message.split()[1:]`. -/
def parse_settings_command (message : String) : Option (Dict SVal) :=
  if (pySplitWs message).length < 2 then none
  else
    parseLoop ((pySplitWs message).drop 1) ((pySplitWs message).drop 1) []

/-- `DEFAULT_SETTINGS`, lines 55-60. -/
def DEFAULT_SETTINGS : Dict SVal :=
  [("aspect_ratio", .inl "16:9"), ("resolution", .inl "720p"),
   ("fps", .inr 30), ("duration", .inr 5)]

/-- The per-user preference store: phone number to settings dict. -/
abbrev PrefMap := Dict (Dict SVal)

/-- Effect of `handle_settings_command phone msg` on `user_preferences`
(lines 1118-1166): a bare `/settings` only shows the current values; a
parsed update seeds the entry with a copy of `DEFAULT_SETTINGS` when the
user has none, then applies the updates; an unparsable command changes
nothing. -/
def handle_settings_command_prefs (prefs : PrefMap) (phone msg : String) :
    PrefMap :=
  if pyStrip msg = "/settings" then prefs
  else
    match parse_settings_command msg with
    | some updates =>
      let cur := (assocGet prefs phone).getD DEFAULT_SETTINGS
      assocSet prefs phone (dictUpdate cur updates)
    | none => prefs

/-- Effect of `handle_incoming_message` on `user_preferences`
(lines 906-959): only messages starting with `/settings` are routed to
`handle_settings_command`; every other branch leaves the store alone. -/
def handle_incoming_prefs (prefs : PrefMap) (m : String × String) : PrefMap :=
  if pyStartsWith m.2 "/settings" then
    handle_settings_command_prefs prefs m.1 m.2
  else prefs

/-- The preference store after a sequence of (phone, body) messages,
starting from the empty store the process boots with (line 52). -/
def runMessages (msgs : List (String × String)) : PrefMap :=
  msgs.foldl handle_incoming_prefs []

/-- Is `(k, v)` a whitelisted settings entry: one of the four known keys
paired with a value from that key's whitelist? -/
def goodEntry (k : String) (v : SVal) : Bool :=
  match v with
  | .inl s =>
    decide ((k = "aspect_ratio" ∧ s ∈ aspectVals)
      ∨ (k = "resolution" ∧ s ∈ resolutionVals))
  | .inr n =>
    decide ((k = "fps" ∧ n ∈ fpsVals) ∨ (k = "duration" ∧ n ∈ durationVals))

/-- Every entry of the dict is whitelisted. -/
def goodDict (d : Dict SVal) : Bool := d.all (fun p => goodEntry p.1 p.2)

/-- The four settings keys. -/
def settingsKeys : List String := ["aspect_ratio", "resolution", "fps", "duration"]

/-- The dict binds all four settings keys. -/
def hasAllKeys (d : Dict SVal) : Bool :=
  settingsKeys.all (fun k => d.any (fun p => p.1 == k))

/-- The per-user invariant: every stored preference dict is whitelisted and
binds all four keys. -/
def PrefInv (m : PrefMap) : Prop :=
  ∀ p ∈ m, goodDict p.2 = true ∧ hasAllKeys p.2 = true

/-! ## Theorems -/

/-- Helper: accepted arrivals increment the running count one-for-one. -/
theorem foldl_stepRunning_replicate (f b : String)
    (h : acceptsMessage f b = true) (n : ℕ) :
    ∀ s : ℕ,
      List.foldl stepRunning s (List.replicate n (WebhookEvent.arrive f b))
        = s + n := by
  induction n with
  | zero => intro s; simp
  | succ n ih =>
    intro s
    rw [List.replicate_succ, List.foldl_cons]
    simp only [stepRunning, h, if_pos]
    rw [ih (s + 1)]
    omega

/-- C1 (corrected): the code enforces no concurrency ceiling.  Every
accepted inbound message makes `whatsapp_webhook` call
`asyncio.create_task` at once, with no permit pool anywhere in the file, so
after `n` accepted arrivals with no completions there are exactly `n`
concurrently live handler tasks — for every `n`, including `n > 5`. -/
theorem C1_no_concurrency_ceiling (n : ℕ) (f b : String)
    (h : acceptsMessage f b = true) :
    runningAfter (List.replicate n (WebhookEvent.arrive f b)) = n := by
  unfold runningAfter
  rw [foldl_stepRunning_replicate f b h n 0]
  omega

/-- C1 witness: six accepted messages give six live handler tasks. -/
theorem C1_witness :
    acceptsMessage "whatsapp:+15551234567" "!generate a cat" = true
      ∧ runningAfter (List.replicate 6
          (WebhookEvent.arrive "whatsapp:+15551234567" "!generate a cat")) = 6 :=
  ⟨by decide, C1_no_concurrency_ceiling 6 "whatsapp:+15551234567" "!generate a cat"
    (by decide)⟩

/-- C1 counterexample: six accepted messages arriving before any handler
completes leave six job bodies executing concurrently, exceeding the
claimed ceiling of 5. -/
theorem C1_counterexample :
    5 < runningAfter (List.replicate 6
      (WebhookEvent.arrive "whatsapp:+15551234567" "!generate a cat")) := by
  decide

/-- C2 (corrected): there is no queue and no capacity check.  The
webhook's decision reads no queue-depth state at all, so a valid message
is spawned whatever the number of pending-plus-in-flight jobs, and the
`QueueFull` outcome is never produced. -/
theorem C2_no_queue_capacity (inFlight : ℕ) (f b : String)
    (h : acceptsMessage f b = true) :
    submitOutcome inFlight f b = SubmitOutcome.spawned
      ∧ submitOutcome inFlight f b ≠ SubmitOutcome.queueFull
      ∧ submitOutcome inFlight f b = submitOutcome 0 f b := by
  unfold submitOutcome
  simp [h]

/-- C2 witness: with 100 jobs already pending-plus-in-flight (the claimed
capacity), a valid submission is still spawned. -/
theorem C2_witness :
    acceptsMessage "whatsapp:+15551234567" "!generate a cat" = true
      ∧ (submitOutcome 100 "whatsapp:+15551234567" "!generate a cat"
            = SubmitOutcome.spawned
          ∧ submitOutcome 100 "whatsapp:+15551234567" "!generate a cat"
            ≠ SubmitOutcome.queueFull
          ∧ submitOutcome 100 "whatsapp:+15551234567" "!generate a cat"
            = submitOutcome 0 "whatsapp:+15551234567" "!generate a cat") :=
  ⟨by decide, C2_no_queue_capacity 100 "whatsapp:+15551234567" "!generate a cat"
    (by decide)⟩

/-- C2 counterexample: at the claimed capacity of 100 pending-plus-in-flight
jobs, submission of a valid message is not rejected with `QueueFull`: it is
accepted and spawned. -/
theorem C2_counterexample :
    submitOutcome 100 "whatsapp:+15551234567" "!generate a cat"
        = SubmitOutcome.spawned
      ∧ submitOutcome 100 "whatsapp:+15551234567" "!generate a cat"
        ≠ SubmitOutcome.queueFull := by
  constructor <;> decide

/-- C3 (confirmed): for every positive probed duration `d`, the attempt-0
bitrate `int((15 * 8 * 1024) / d * 0.9)` satisfies
`bitrate * d / 8 ≤ 15360` KB; indeed `bitrate * d / 8` lies in
`(13824 - d/8, 13824]` where `13824 = 0.9 * 15360`, i.e. the plan lands
essentially 10% under the budget and never over it. -/
theorem C3_attempt0_bitrate_budget (d : ℚ) (hd : 0 < d) :
    (target_bitrate 15 d : ℚ) * d / 8 ≤ 13824
      ∧ 13824 - d / 8 < (target_bitrate 15 d : ℚ) * d / 8
      ∧ (13824 : ℚ) = (9 / 10) * 15360
      ∧ (target_bitrate 15 d : ℚ) * d / 8 ≤ 15360 := by
  have hd0 : d ≠ 0 := ne_of_gt hd
  have e1 : target_bitrate 15 d = ⌊(110592 : ℚ) / d⌋ := by
    unfold target_bitrate
    congr 1
    field_simp
    ring
  have hle : ((⌊(110592 : ℚ) / d⌋ : ℤ) : ℚ) ≤ (110592 : ℚ) / d :=
    Int.floor_le _
  have hgt : (110592 : ℚ) / d - 1 < ((⌊(110592 : ℚ) / d⌋ : ℤ) : ℚ) :=
    Int.sub_one_lt_floor _
  rw [e1]
  have hmul : ((⌊(110592 : ℚ) / d⌋ : ℤ) : ℚ) * d ≤ 110592 := by
    calc ((⌊(110592 : ℚ) / d⌋ : ℤ) : ℚ) * d
        ≤ ((110592 : ℚ) / d) * d := mul_le_mul_of_nonneg_right hle hd.le
      _ = 110592 := by field_simp
  have hmul2 : (110592 : ℚ) - d < ((⌊(110592 : ℚ) / d⌋ : ℤ) : ℚ) * d := by
    have h2 := mul_lt_mul_of_pos_right hgt hd
    calc (110592 : ℚ) - d = ((110592 : ℚ) / d - 1) * d := by
          field_simp
      _ < _ := h2
  refine ⟨by linarith, by linarith, by norm_num, by linarith⟩

/-- C3 witness: the spec's worked example, a 10-second probe. -/
theorem C3_witness :
    (0 : ℚ) < 10
      ∧ ((target_bitrate 15 10 : ℚ) * 10 / 8 ≤ 13824
          ∧ 13824 - 10 / 8 < (target_bitrate 15 10 : ℚ) * 10 / 8
          ∧ (13824 : ℚ) = (9 / 10) * 15360
          ∧ (target_bitrate 15 10 : ℚ) * 10 / 8 ≤ 15360) :=
  ⟨by norm_num, C3_attempt0_bitrate_budget 10 (by norm_num)⟩

/-- C4 (corrected): whenever attempt 0 overshoots, the escalation plan does
select a strictly lower bitrate (`int(target_bitrate * 0.7)`) and a spatial
scale-down (`0.8`), but both factors are hard-coded constants: the plan is
byte-for-byte identical for every measured overshoot ratio, so no
multiplier is derived from `observedSize/targetSize` and no severity bands
exist. -/
theorem C4_escalation_fixed_factors (tb0 : ℤ)
    (observed target observed2 target2 : ℚ) (h : 1 ≤ tb0) :
    (escalationArgs tb0 observed target).video_bitrate < tb0
      ∧ (escalationArgs tb0 observed target).vf_scale = some (4 / 5 : ℚ)
      ∧ escalationArgs tb0 observed target
          = escalationArgs tb0 observed2 target2 := by
  refine ⟨?_, rfl, rfl⟩
  show ⌊(tb0 : ℚ) * (7 / 10 : ℚ)⌋ < tb0
  apply Int.floor_lt.mpr
  have h0 : (0 : ℚ) < (tb0 : ℚ) := by
    exact_mod_cast lt_of_lt_of_le Int.zero_lt_one h
  nlinarith

/-- C4 witness: attempt 0's bitrate for the 10-second worked example. -/
theorem C4_witness :
    (1 : ℤ) ≤ 11059
      ∧ ((escalationArgs 11059 16 15).video_bitrate < 11059
          ∧ (escalationArgs 11059 16 15).vf_scale = some (4 / 5 : ℚ)
          ∧ escalationArgs 11059 16 15 = escalationArgs 11059 45 15) :=
  ⟨by norm_num, C4_escalation_fixed_factors 11059 16 15 45 15 (by norm_num)⟩

/-- C4 counterexample: a mild overshoot (15.1 MB measured against a 15 MB
budget) and a severe one (45 MB, three times the budget) produce the
identical escalation plan — the bitrate multiplier and the downscale factor
do not depend on the measured ratio, contradicting the claimed
ratio-derived multiplier and severity bands. -/
theorem C4_counterexample :
    escalationArgs 11059 (151 / 10) 15 = escalationArgs 11059 45 15 := rfl

/-- C5 (corrected): the escalated plan does not strip audio.  It re-encodes
the audio track with `acodec='aac'` at `audio_bitrate='96k'` — reduced from
attempt 0's 128 kbps, but still present. -/
theorem C5_audio_not_stripped (tb0 : ℤ) (observed target max_size_mb d : ℚ) :
    (escalationArgs tb0 observed target).acodec = "aac"
      ∧ (escalationArgs tb0 observed target).audio_bitrate = 96
      ∧ (attempt0Args max_size_mb d).audio_bitrate = 128
      ∧ (escalationArgs tb0 observed target).audio_bitrate
          < (attempt0Args max_size_mb d).audio_bitrate := by
  refine ⟨rfl, rfl, rfl, ?_⟩
  show (96 : ℕ) < 128
  norm_num

/-- C5 counterexample: the concrete escalation plan after a 16 MB first
pass against a 15 MB budget carries an AAC audio track at 96 kbps, so its
output does not have audio stripped. -/
theorem C5_counterexample :
    (escalationArgs 11059 16 15).acodec = "aac"
      ∧ (escalationArgs 11059 16 15).audio_bitrate = 96
      ∧ (escalationArgs 11059 16 15).audio_bitrate ≠ 0 := by
  refine ⟨rfl, rfl, ?_⟩
  decide

/-- C6 (corrected): the cleanup of `compress_video` is complete on the
success paths and on probe or first-encode failures, but two exit paths
orphan a temporary file: a failure during the download leaves the partially
downloaded input (`input_path` is assigned only after the download loop),
and a failure during the escalation encode leaves the second output file
(`output_path` still names the first output when the handler runs). -/
theorem C6_leftover_characterization (u : String) (env : CompressEnv) :
    leftover (compress_video u 15 env) =
      (match env.fail with
       | .downloadFail => [FileId.fin]
       | .encode2Fail =>
         if env.duration ≤ 0 then []
         else if 15 < env.compressed_size then [FileId.fout2] else []
       | _ => []) := by
  rcases env with ⟨fail, dur, size⟩
  cases fail <;>
    by_cases h1 : dur ≤ (0 : ℚ) <;>
    by_cases h2 : (15 : ℚ) < size <;>
    simp [compress_video, compressCleanup, leftover, h1, h2]

/-- C6 counterexample: when the escalation encode fails (after a 16 MB
first pass against the 15 MB budget), the second output file is left on
disk when the function returns. -/
theorem C6_counterexample :
    leftover (compress_video "http://v.mp4" 15
        ⟨FailPoint.encode2Fail, 10, 16⟩) = [FileId.fout2]
      ∧ leftover (compress_video "http://v.mp4" 15
          ⟨FailPoint.encode2Fail, 10, 16⟩) ≠ [] := by
  constructor <;> decide

/-- C7 (confirmed): every exception path of `compress_video` ends in the
catch-all handler, which returns the original URL; the only other returns
hand back a compressed output file.  So the stage never propagates an
error: its result is always either a compressed file path or the original
source URL. -/
theorem C7_compress_fallback (u : String) (max_size_mb : ℚ)
    (env : CompressEnv) :
    (compress_video u max_size_mb env).result = VideoRef.url u
      ∨ (compress_video u max_size_mb env).result = VideoRef.path FileId.fout
      ∨ (compress_video u max_size_mb env).result
          = VideoRef.path FileId.fout2 := by
  simp only [compress_video, compressCleanup]
  split_ifs <;> simp

/-- Helper: `handle_generated_video` stores the `completed` stage and
returns `True` on both of its branches. -/
theorem handle_generated_video_completes (phone prompt u : String)
    (prefs : Prefs) (env : HgvEnv) :
    (handle_generated_video phone prompt u prefs env).stage = "completed"
      ∧ (handle_generated_video phone prompt u prefs env).ret = true := by
  rcases env with ⟨comp, up, ⟨c1, f1⟩, s2⟩
  cases c1 <;> cases f1 <;>
    simp [handle_generated_video, send_whatsapp_message]

/-- C8 (confirmed): when sending the video message reports failure, the
handler sends a degraded text-only fallback whose body interpolates the raw
final video URL, still stores the `completed` conversation stage, and still
returns success — delivery failure is not treated as job failure. -/
theorem C8_delivery_failure_fallback (phone prompt u : String) (prefs : Prefs)
    (env : HgvEnv) (h1 : env.send1.createOk = false)
    (h2 : env.send1.fallbackCreateOk = false) :
    (∃ m ∈ (handle_generated_video phone prompt u prefs env).sent,
        m.media_url = none
          ∧ m.body = hgvFallbackPre prompt prefs ++ finalVideoUrl u env
              ++ hgvFallbackPost)
      ∧ (handle_generated_video phone prompt u prefs env).stage = "completed"
      ∧ (handle_generated_video phone prompt u prefs env).ret = true := by
  cases hc : env.send2.createOk <;>
    simp [handle_generated_video, send_whatsapp_message, h1, h2, hc,
      hgvFallbackBody]

/-- C8 witness: a concrete run whose video send fails outright. -/
theorem C8_witness :
    (∃ m ∈ (handle_generated_video "p" "a cat" "http://v.mp4"
          ⟨"16:9", "720p", 30, 5⟩
          ⟨VideoRef.url "http://v.mp4", none, ⟨false, false⟩,
            ⟨true, true⟩⟩).sent,
        m.media_url = none
          ∧ m.body = hgvFallbackPre "a cat" ⟨"16:9", "720p", 30, 5⟩
              ++ finalVideoUrl "http://v.mp4"
                  ⟨VideoRef.url "http://v.mp4", none, ⟨false, false⟩,
                    ⟨true, true⟩⟩
              ++ hgvFallbackPost)
      ∧ (handle_generated_video "p" "a cat" "http://v.mp4"
          ⟨"16:9", "720p", 30, 5⟩
          ⟨VideoRef.url "http://v.mp4", none, ⟨false, false⟩,
            ⟨true, true⟩⟩).stage = "completed"
      ∧ (handle_generated_video "p" "a cat" "http://v.mp4"
          ⟨"16:9", "720p", 30, 5⟩
          ⟨VideoRef.url "http://v.mp4", none, ⟨false, false⟩,
            ⟨true, true⟩⟩).ret = true :=
  C8_delivery_failure_fallback "p" "a cat" "http://v.mp4"
    ⟨"16:9", "720p", 30, 5⟩
    ⟨VideoRef.url "http://v.mp4", none, ⟨false, false⟩, ⟨true, true⟩⟩
    rfl rfl

/-- C9 (confirmed): the moderation gate applies Python `not` to the tuple
returned by `moderate_content`, and a non-empty tuple is always truthy, so
the rejection branch is unreachable for every prompt and the conversation
stage is never set to `rejected` — even though a prompt such as
"a scene of violence" is in fact flagged (first component `False`). -/
theorem C9_moderation_rejection_unreachable :
    (∀ (phone prompt : String) (env : HvgEnv),
        "rejected" ∉ handle_video_generation_stages phone prompt env)
      ∧ (moderate_content "a scene of violence").1 = false := by
  constructor
  · intro phone prompt env
    unfold handle_video_generation_stages
    simp only [pyTruthyPair]
    cases hr : env.replicateRaises <;>
      cases ho : env.replicateOutput <;>
      simp [hr, ho, (handle_generated_video_completes phone prompt _
        env.prefs env.hgv).1]
  · decide

/-- Helper: Boolean-to-Prop view of `goodDict`. -/
theorem goodDict_iff {d : Dict SVal} :
    goodDict d = true ↔ ∀ p ∈ d, goodEntry p.1 p.2 = true := by
  unfold goodDict
  exact List.all_eq_true

/-- Helper: an element of a dict after a Python-style insert is the
inserted pair or an element of the original dict. -/
theorem mem_assocSet {α : Type} {d : Dict α} {k : String} {v : α}
    {p : String × α} (hp : p ∈ assocSet d k v) : p = (k, v) ∨ p ∈ d := by
  unfold assocSet at hp
  split at hp
  · rcases List.mem_map.mp hp with ⟨q, hq, hqe⟩
    by_cases h : q.1 = k
    · left; rw [← hqe]; simp [h]
    · right; rw [← hqe]; simpa [h] using hq
  · rcases List.mem_append.mp hp with h | h
    · right; exact h
    · left; simpa using h

/-- Helper: inserting a whitelisted entry keeps the dict whitelisted. -/
theorem goodDict_assocSet {d : Dict SVal} {k : String} {v : SVal}
    (hd : goodDict d = true) (hv : goodEntry k v = true) :
    goodDict (assocSet d k v) = true := by
  rw [goodDict_iff] at *
  intro p hp
  rcases mem_assocSet hp with rfl | hm
  · exact hv
  · exact hd p hm

/-- Helper: the `key=value` loop body only inserts whitelisted entries. -/
theorem goodDict_applyEqPart {updates : Dict SVal} (part : String)
    (h : goodDict updates = true) :
    goodDict (applyEqPart updates part) = true := by
  unfold applyEqPart
  dsimp only
  split_ifs with h1 h2 h3 h4 h5 h6 <;> try exact h
  · exact goodDict_assocSet h (decide_eq_true (Or.inl ⟨rfl, h1.2⟩))
  · exact goodDict_assocSet h (decide_eq_true (Or.inr ⟨rfl, h2.2⟩))
  · exact goodDict_assocSet h (decide_eq_true (Or.inl ⟨rfl, h4⟩))
  · exact goodDict_assocSet h (decide_eq_true (Or.inr ⟨rfl, h6⟩))

/-- Helper: an early return of the old-format branch is a non-empty
whitelisted singleton. -/
theorem oldFormatResult_good {sp : List String} {d : Dict SVal}
    (h : oldFormatResult sp = some d) : goodDict d = true ∧ d ≠ [] := by
  unfold oldFormatResult at h
  dsimp only at h
  split_ifs at h with h1 h2 h3 h4 h5 h6 <;> try simp at h
  · subst h
    refine ⟨?_, by simp⟩
    have hg : goodEntry "aspect_ratio" (Sum.inl (sp[1]?.getD "")) = true :=
      decide_eq_true (Or.inl ⟨rfl, h1.2⟩)
    simp [goodDict, hg]
  · subst h
    refine ⟨?_, by simp⟩
    have hg : goodEntry "resolution" (Sum.inl (sp[1]?.getD "")) = true :=
      decide_eq_true (Or.inr ⟨rfl, h2.2⟩)
    simp [goodDict, hg]
  · subst h
    refine ⟨?_, by simp⟩
    have hg : goodEntry "fps" (Sum.inr (pyToNat (sp[1]?.getD ""))) = true :=
      decide_eq_true (Or.inl ⟨rfl, h4⟩)
    simp [goodDict, hg]
  · subst h
    refine ⟨?_, by simp⟩
    have hg : goodEntry "duration" (Sum.inr (pyToNat (sp[1]?.getD ""))) = true :=
      decide_eq_true (Or.inr ⟨rfl, h6⟩)
    simp [goodDict, hg]

/-- Helper: the parse loop, started from a whitelisted accumulator, only
succeeds with a non-empty whitelisted dict. -/
theorem parseLoop_good (sp : List String) :
    ∀ (l : List String) (acc : Dict SVal), goodDict acc = true →
      ∀ d, parseLoop sp l acc = some d → goodDict d = true ∧ d ≠ [] := by
  intro l
  induction l with
  | nil =>
    intro acc hacc d hd
    unfold parseLoop at hd
    by_cases h : acc.isEmpty = true
    · rw [if_pos h] at hd
      simp at hd
    · rw [if_neg h] at hd
      injection hd with hd
      subst hd
      refine ⟨hacc, fun hnil => ?_⟩
      subst hnil
      simp at h
  | cons part rest ih =>
    intro acc hacc d hd
    unfold parseLoop at hd
    by_cases h1 : pyContainsChar part '=' = true
    · rw [if_pos h1] at hd
      exact ih _ (goodDict_applyEqPart part hacc) d hd
    · rw [if_neg h1] at hd
      by_cases h2 : 2 ≤ sp.length
      · rw [if_pos h2] at hd
        cases heq : oldFormatResult sp with
        | some d0 =>
          rw [heq] at hd
          dsimp only at hd
          injection hd with hd
          subst hd
          exact oldFormatResult_good heq
        | none =>
          rw [heq] at hd
          dsimp only at hd
          by_cases h3 : acc.isEmpty = true
          · rw [if_pos h3] at hd
            simp at hd
          · rw [if_neg h3] at hd
            injection hd with hd
            subst hd
            refine ⟨hacc, fun hnil => ?_⟩
            subst hnil
            simp at h3
      · rw [if_neg h2] at hd
        exact ih _ hacc d hd

/-- Helper: `parse_settings_command` returns `none` or a non-empty
whitelisted dict. -/
theorem parse_settings_command_good (msg : String) :
    parse_settings_command msg = none
      ∨ ∃ u, parse_settings_command msg = some u ∧ u ≠ []
          ∧ goodDict u = true := by
  cases heq : parse_settings_command msg with
  | none => exact Or.inl rfl
  | some u =>
    right
    refine ⟨u, rfl, ?_⟩
    unfold parse_settings_command at heq
    by_cases h : (pySplitWs msg).length < 2
    · rw [if_pos h] at heq
      simp at heq
    · rw [if_neg h] at heq
      have hg := parseLoop_good ((pySplitWs msg).drop 1) ((pySplitWs msg).drop 1)
        [] (by simp [goodDict]) u heq
      exact ⟨hg.2, hg.1⟩

/-- Helper: a Python-style insert never loses a key already bound. -/
theorem any_key_assocSet {α : Type} {d : Dict α} {k : String} {v : α}
    {k0 : String} (h : d.any (fun p => p.1 == k0) = true) :
    (assocSet d k v).any (fun p => p.1 == k0) = true := by
  rw [List.any_eq_true] at h
  rcases h with ⟨q, hq, hq0⟩
  unfold assocSet
  split
  · rw [List.any_eq_true]
    refine ⟨(if q.1 = k then (k, v) else q), List.mem_map_of_mem _ hq, ?_⟩
    by_cases hk : q.1 = k
    · simp only [hk, if_pos]
      rw [← hk]
      exact hq0
    · simpa [hk] using hq0
  · rw [List.any_eq_true]
    exact ⟨q, List.mem_append_left _ hq, hq0⟩

/-- Helper: `hasAllKeys` survives a Python-style insert. -/
theorem hasAllKeys_assocSet {d : Dict SVal} {k : String} {v : SVal}
    (h : hasAllKeys d = true) : hasAllKeys (assocSet d k v) = true := by
  unfold hasAllKeys at *
  rw [List.all_eq_true] at *
  intro k0 hk0
  exact any_key_assocSet (h k0 hk0)

/-- Helper: `dict.update` with whitelisted updates keeps the dict
whitelisted and key-complete. -/
theorem dictUpdate_good : ∀ (u d : Dict SVal), goodDict d = true →
    goodDict u = true → hasAllKeys d = true →
    goodDict (dictUpdate d u) = true ∧ hasAllKeys (dictUpdate d u) = true := by
  intro u
  induction u with
  | nil => intro d hd _ hk; exact ⟨hd, hk⟩
  | cons p ps ih =>
    intro d hd hu hk
    have hp : goodEntry p.1 p.2 = true :=
      goodDict_iff.mp hu p (List.mem_cons_self _ _)
    have hps : goodDict ps = true := by
      rw [goodDict_iff] at hu ⊢
      intro q hq
      exact hu q (List.mem_cons_of_mem _ hq)
    have := ih (assocSet d p.1 p.2) (goodDict_assocSet hd hp) hps
      (hasAllKeys_assocSet hk)
    simpa [dictUpdate, List.foldl_cons] using this

/-- Helper: `DEFAULT_SETTINGS` is whitelisted and key-complete. -/
theorem default_settings_good :
    goodDict DEFAULT_SETTINGS = true ∧ hasAllKeys DEFAULT_SETTINGS = true := by
  decide

/-- Helper: one inbound message preserves the per-user invariant. -/
theorem prefInv_step {m : PrefMap} (h : PrefInv m) (msg : String × String) :
    PrefInv (handle_incoming_prefs m msg) := by
  unfold handle_incoming_prefs
  split_ifs with hroute
  · unfold handle_settings_command_prefs
    split_ifs with hbare
    · exact h
    · cases heq : parse_settings_command msg.2 with
      | none => simp only [heq]; exact h
      | some updates =>
        simp only [heq]
        intro p hp
        rcases mem_assocSet hp with rfl | hm
        · have hcur : goodDict ((assocGet m msg.1).getD DEFAULT_SETTINGS) = true
              ∧ hasAllKeys ((assocGet m msg.1).getD DEFAULT_SETTINGS) = true := by
            cases hg : assocGet m msg.1 with
            | none => simpa using default_settings_good
            | some old =>
              unfold assocGet at hg
              rcases Option.map_eq_some'.mp hg with ⟨q, hfind, hq2⟩
              have hqm : q ∈ m := List.mem_of_find?_eq_some hfind
              simpa [hq2] using h q hqm
          have hupd : goodDict updates = true := by
            rcases parse_settings_command_good msg.2 with hno | ⟨u, hu, _, hgood⟩
            · rw [heq] at hno; simp at hno
            · rw [heq] at hu
              injection hu with hu
              subst hu
              exact hgood
          exact dictUpdate_good updates _ hcur.1 hupd hcur.2
        · exact h p hm
  · exact h

/-- Helper: the invariant holds after any message sequence from boot. -/
theorem prefInv_runMessages (msgs : List (String × String)) :
    PrefInv (runMessages msgs) := by
  unfold runMessages
  have step : ∀ (l : List (String × String)) (m : PrefMap), PrefInv m →
      PrefInv (l.foldl handle_incoming_prefs m) := by
    intro l
    induction l with
    | nil => intro m hm; exact hm
    | cons x xs ih =>
      intro m hm
      exact ih _ (prefInv_step hm x)
  exact step msgs [] (fun p hp => absurd hp (List.not_mem_nil p))

/-- C10 (confirmed): `parse_settings_command` returns `None` or a non-empty
dict drawn entirely from the fixed whitelists, and since
`handle_settings_command` seeds new users from `DEFAULT_SETTINGS` before
applying such updates — and no other code writes `user_preferences` —
every stored entry after any message sequence binds all four keys and holds
only whitelisted values. -/
theorem C10_settings_whitelist :
    (∀ msg : String,
        parse_settings_command msg = none
          ∨ ∃ u, parse_settings_command msg = some u ∧ u ≠ []
              ∧ goodDict u = true)
      ∧ ∀ (msgs : List (String × String)) (phone : String) (d : Dict SVal),
          assocGet (runMessages msgs) phone = some d →
            goodDict d = true ∧ hasAllKeys d = true := by
  refine ⟨parse_settings_command_good, ?_⟩
  intro msgs phone d hget
  unfold assocGet at hget
  rcases Option.map_eq_some'.mp hget with ⟨q, hfind, hq2⟩
  have hqm : q ∈ runMessages msgs := List.mem_of_find?_eq_some hfind
  have := prefInv_runMessages msgs q hqm
  rwa [hq2] at this

/-- C10 witness: after the single command `/settings fps=60`, user `p1`'s
stored preferences are key-complete and whitelisted. -/
theorem C10_witness :
    goodDict [("aspect_ratio", Sum.inl "16:9"), ("resolution", Sum.inl "720p"),
        ("fps", Sum.inr 60), ("duration", Sum.inr 5)] = true
      ∧ hasAllKeys [("aspect_ratio", Sum.inl "16:9"),
          ("resolution", Sum.inl "720p"), ("fps", Sum.inr 60),
          ("duration", Sum.inr 5)] = true :=
  C10_settings_whitelist.2 [("p1", "/settings fps=60")] "p1"
    [("aspect_ratio", Sum.inl "16:9"), ("resolution", Sum.inl "720p"),
      ("fps", Sum.inr 60), ("duration", Sum.inr 5)] (by decide)

end Peppo
